import Mathlib

/-!
Shallow embedding of the Medusa inventory module's coordinating service
(src/packages/inventory/src/services/inventory.ts) together with models of
its three store collaborators (item, level and reservation services), which
are described by the specification but whose code is not part of this
repository snapshot.  Quantities are integers; errors are typed MedusaError
values; stateful operations take an explicit State and return the error or
result together with the successor state, so that an early failure provably
leaves the state untouched.
-/

namespace Medusa

/-- The error types of MedusaError used by the inventory module. -/
inductive ErrType where
  | NOT_FOUND
  | INVALID_DATA
deriving DecidableEq, Repr

/-- A typed error carrying a message, mirroring MedusaError. -/
structure MedusaError where
  type : ErrType
  message : String
deriving DecidableEq, Repr

/-- An inventory item row: only the identity is load-bearing for the ledger. -/
structure InventoryItem where
  id : String
deriving DecidableEq, Repr

/-- An inventory level row: stock of one item at one location. -/
structure InventoryLevel where
  id : String
  inventory_item_id : String
  location_id : String
  stocked_quantity : Int
  reserved_quantity : Int
deriving DecidableEq, Repr

/-- A reservation row: demand held against a level. -/
structure ReservationItem where
  id : String
  inventory_item_id : String
  location_id : String
  quantity : Int
  line_item_id : Option String
deriving DecidableEq, Repr

/-- Input for creating one reservation item. -/
structure CreateReservationItemInput where
  inventory_item_id : String
  location_id : String
  quantity : Int
  line_item_id : Option String
deriving DecidableEq, Repr

/-- An (inventory_item_id, location_id) pair, the key of a level row. -/
structure ItemLocation where
  inventory_item_id : String
  location_id : String
deriving DecidableEq, Repr

/-- The persistent state: the three tables the stores manage. -/
structure State where
  items : List InventoryItem
  levels : List InventoryLevel
  reservations : List ReservationItem
deriving DecidableEq, Repr

/-- Store calls observable from the read-only quantity queries, used to state
when a query reaches which store. -/
inductive StoreCall where
  | itemRetrieve (inventoryItemId : String)
  | levelAvailableQuery (inventoryItemId : String) (locationIds : List String)
  | levelStockedQuery (inventoryItemId : String) (locationIds : List String)
  | levelReservedQuery (inventoryItemId : String) (locationIds : List String)
deriving DecidableEq, Repr

/-- Does a level row carry the given (item, location) key? -/
def levelKeyIs (inventoryItemId locationId : String) (l : InventoryLevel) : Bool :=
  decide (l.inventory_item_id = inventoryItemId ∧ l.location_id = locationId)

/-- Modelled from the spec: the Inventory Level Store's single-row lookup,
list({inventory_item_id, location_id}, take 1), returning the first matching
row when one exists. -/
def findLevel (s : State) (inventoryItemId locationId : String) : Option InventoryLevel :=
  s.levels.find? (levelKeyIs inventoryItemId locationId)

/-- Modelled from the spec: the Inventory Level Store's batch query, listing
the levels whose item id is in a set of item ids and whose location id is in
a set of location ids. -/
def listLevelsBatch (s : State) (itemIds locationIds : List String) : List InventoryLevel :=
  s.levels.filter (fun l =>
    decide (l.inventory_item_id ∈ itemIds ∧ l.location_id ∈ locationIds))

/-- The level rows of one item across a set of locations. -/
def levelsAt (s : State) (inventoryItemId : String) (locationIds : List String) :
    List InventoryLevel :=
  s.levels.filter (fun l =>
    decide (l.inventory_item_id = inventoryItemId ∧ l.location_id ∈ locationIds))

/-- Modelled from the spec: the Level Store aggregation helper returning the
sum of stocked quantities of one item across a set of locations. -/
def getStockedQuantity (s : State) (inventoryItemId : String) (locationIds : List String) : Int :=
  ((levelsAt s inventoryItemId locationIds).map (fun l => l.stocked_quantity)).sum

/-- Modelled from the spec: the Level Store aggregation helper returning the
sum of reserved quantities of one item across a set of locations. -/
def getReservedQuantity (s : State) (inventoryItemId : String) (locationIds : List String) : Int :=
  ((levelsAt s inventoryItemId locationIds).map (fun l => l.reserved_quantity)).sum

/-- Modelled from the spec: the Level Store aggregation helper returning the
sum of derived available quantities (stocked minus reserved) of one item
across a set of locations. -/
def getAvailableQuantity (s : State) (inventoryItemId : String) (locationIds : List String) : Int :=
  ((levelsAt s inventoryItemId locationIds).map
    (fun l => l.stocked_quantity - l.reserved_quantity)).sum

/-- Does an inventory item row with this id exist? -/
def itemExists (s : State) (inventoryItemId : String) : Bool :=
  s.items.any (fun it => decide (it.id = inventoryItemId))

/-- The NotFound error the Inventory Item Store raises for a missing item. -/
def itemNotFoundError (inventoryItemId : String) : MedusaError :=
  ⟨.NOT_FOUND, "InventoryItem with id " ++ inventoryItemId ++ " was not found"⟩

/-- Modelled from the spec: the Inventory Item Store's retrieve(id), which
returns the item or fails with NotFound. -/
def inventoryItemRetrieve (s : State) (inventoryItemId : String) :
    Except MedusaError InventoryItem :=
  match s.items.find? (fun it => decide (it.id = inventoryItemId)) with
  | some it => .ok it
  | none => .error (itemNotFoundError inventoryItemId)

/-- Lookup in the two-level Map (item id, then location id) that
ensureInventoryLevels builds by a fold over the fetched rows; a later row
with the same key overwrites an earlier one, exactly as Map.set does. -/
def levelMapGet (lvls : List InventoryLevel) (inventoryItemId locationId : String) :
    Option InventoryLevel :=
  lvls.foldl
    (fun acc l => if levelKeyIs inventoryItemId locationId l then some l else acc) none

/-- The per-pair message used in the aggregated NotFound of
ensureInventoryLevels. -/
def notStockedMessage (p : ItemLocation) : String :=
  "Item " ++ p.inventory_item_id ++ " is not stocked at location " ++ p.location_id

/-- ensureInventoryLevels: fetch all levels matching the sets of item ids and
location ids in one query, index them into a two-level map, collect every
input pair that does not resolve, raise one aggregated NotFound when any is
missing, and otherwise map the fetched rows through the index. -/
def ensureInventoryLevels (s : State) (data : List ItemLocation) :
    Except MedusaError (List InventoryLevel) :=
  let inventoryLevels :=
    listLevelsBatch s (data.map (fun e => e.inventory_item_id))
      (data.map (fun e => e.location_id))
  let missing := data.filter (fun i =>
    (levelMapGet inventoryLevels i.inventory_item_id i.location_id).isNone)
  if missing.isEmpty then
    .ok (inventoryLevels.map (fun i =>
      (levelMapGet inventoryLevels i.inventory_item_id i.location_id).getD i))
  else
    .error ⟨.NOT_FOUND, String.intercalate ", " (missing.map notStockedMessage)⟩

/-- The (item, location) key of a reservation input. -/
def toItemLocation (i : CreateReservationItemInput) : ItemLocation :=
  ⟨i.inventory_item_id, i.location_id⟩

/-- Modelled from the spec: raise a level's reserved quantity in step with a
reservation write (reserved_quantity is mutated in step with reservation
writes; the level key is unique, so at most one row changes). -/
def bumpReserved (lvls : List InventoryLevel) (inventoryItemId locationId : String)
    (q : Int) : List InventoryLevel :=
  lvls.map (fun l =>
    if levelKeyIs inventoryItemId locationId l then
      { l with reserved_quantity := l.reserved_quantity + q }
    else l)

/-- The reservation row the store creates for one input, with a generated id. -/
def reservationRow (idx : Nat) (i : CreateReservationItemInput) : ReservationItem :=
  ⟨"resitem_" ++ toString idx, i.inventory_item_id, i.location_id, i.quantity,
    i.line_item_id⟩

/-- The reservation rows the store creates for a batch of inputs, one row per
input, with ids generated from consecutive indices. -/
def reservationRows (startIdx : Nat) : List CreateReservationItemInput → List ReservationItem
  | [] => []
  | i :: rest => reservationRow startIdx i :: reservationRows (startIdx + 1) rest

/-- Modelled from the spec: the Reservation Store's create(batch), which
appends one reservation row per input and raises the reserved quantity of
the referenced level in step with each write. -/
def reservationItemCreate (s : State) (input : List CreateReservationItemInput) :
    List ReservationItem × State :=
  let rows := reservationRows s.reservations.length input
  let lvls := input.foldl
    (fun acc i => bumpReserved acc i.inventory_item_id i.location_id i.quantity) s.levels
  (rows, { s with reservations := s.reservations ++ rows, levels := lvls })

/-- createReservationItems: validate every input pair with
ensureInventoryLevels first, then write all reservation rows through the
Reservation Store; an error before the write leaves the state untouched. -/
def createReservationItems (s : State) (input : List CreateReservationItemInput) :
    Except MedusaError (List ReservationItem) × State :=
  match ensureInventoryLevels s (input.map toItemLocation) with
  | .error e => (.error e, s)
  | .ok _ =>
    let r := reservationItemCreate s input
    (.ok r.1, r.2)

/-- Modelled from the spec: the Level Store's update(id, fields) for the
stocked quantity; the id is the unique primary key of the level table. -/
def levelUpdateStocked (s : State) (levelId : String) (q : Int) : State :=
  { s with levels := s.levels.map (fun l =>
      if decide (l.id = levelId) then { l with stocked_quantity := q } else l) }

/-- The NotFound error adjustInventory raises for a missing level. -/
def adjustNotFoundError (inventoryItemId locationId : String) : MedusaError :=
  ⟨.NOT_FOUND, "Inventory level for inventory item " ++ inventoryItemId ++
    " and location " ++ locationId ++ " not found"⟩

/-- adjustInventory: read the current level for (item, location), fail with
NotFound when absent, otherwise write stocked_quantity = old + adjustment and
return the updated level. -/
def adjustInventory (s : State) (inventoryItemId locationId : String) (adjustment : Int) :
    Except MedusaError InventoryLevel × State :=
  match findLevel s inventoryItemId locationId with
  | none => (.error (adjustNotFoundError inventoryItemId locationId), s)
  | some lvl =>
    (.ok { lvl with stocked_quantity := lvl.stocked_quantity + adjustment },
      levelUpdateStocked s lvl.id (lvl.stocked_quantity + adjustment))

/-- retrieveAvailableQuantity: confirm the item exists (NotFound otherwise),
return 0 for an empty location list without touching the level store, and
otherwise delegate to the Level Store's availability aggregation; the second
component records the store calls issued, in order. -/
def retrieveAvailableQuantity (s : State) (inventoryItemId : String)
    (locationIds : List String) : Except MedusaError Int × List StoreCall :=
  match inventoryItemRetrieve s inventoryItemId with
  | .error e => (.error e, [.itemRetrieve inventoryItemId])
  | .ok _ =>
    if locationIds.length = 0 then
      (.ok 0, [.itemRetrieve inventoryItemId])
    else
      (.ok (getAvailableQuantity s inventoryItemId locationIds),
        [.itemRetrieve inventoryItemId,
          .levelAvailableQuery inventoryItemId locationIds])

/-- retrieveStockedQuantity: same item-existence-first shape as
retrieveAvailableQuantity, delegating to the stocked aggregation. -/
def retrieveStockedQuantity (s : State) (inventoryItemId : String)
    (locationIds : List String) : Except MedusaError Int × List StoreCall :=
  match inventoryItemRetrieve s inventoryItemId with
  | .error e => (.error e, [.itemRetrieve inventoryItemId])
  | .ok _ =>
    if locationIds.length = 0 then
      (.ok 0, [.itemRetrieve inventoryItemId])
    else
      (.ok (getStockedQuantity s inventoryItemId locationIds),
        [.itemRetrieve inventoryItemId,
          .levelStockedQuery inventoryItemId locationIds])

/-- retrieveReservedQuantity: same item-existence-first shape as
retrieveAvailableQuantity, delegating to the reserved aggregation. -/
def retrieveReservedQuantity (s : State) (inventoryItemId : String)
    (locationIds : List String) : Except MedusaError Int × List StoreCall :=
  match inventoryItemRetrieve s inventoryItemId with
  | .error e => (.error e, [.itemRetrieve inventoryItemId])
  | .ok _ =>
    if locationIds.length = 0 then
      (.ok 0, [.itemRetrieve inventoryItemId])
    else
      (.ok (getReservedQuantity s inventoryItemId locationIds),
        [.itemRetrieve inventoryItemId,
          .levelReservedQuery inventoryItemId locationIds])

/-- confirmInventory: derive the available quantity through
retrieveAvailableQuantity and compare it with the requested quantity; a
read-only decision that issues no write. -/
def confirmInventory (s : State) (inventoryItemId : String) (locationIds : List String)
    (quantity : Int) : Except MedusaError Bool × State :=
  match (retrieveAvailableQuantity s inventoryItemId locationIds).1 with
  | .error e => (.error e, s)
  | .ok available => (.ok (decide (available ≥ quantity)), s)

/-- deleteInventoryLevel: look up the row for (item, location); when absent,
return without any write; otherwise delete the row by id through the store. -/
def deleteInventoryLevel (s : State) (inventoryItemId locationId : String) :
    Except MedusaError Unit × State :=
  match findLevel s inventoryItemId locationId with
  | none => (.ok (), s)
  | some lvl =>
    (.ok (), { s with levels := s.levels.filter (fun l => decide (l.id ≠ lvl.id)) })

/-- deleteInventoryItem: first delete every level belonging to the item ids
through the Level Store's deleteByInventoryItemId, then delete the item rows
themselves; reservations are not touched. -/
def deleteInventoryItem (s : State) (inventoryItemIds : List String) :
    Except MedusaError Unit × State :=
  let s1 := { s with levels := s.levels.filter (fun l =>
    decide (l.inventory_item_id ∉ inventoryItemIds)) }
  let s2 := { s1 with items := s1.items.filter (fun it =>
    decide (it.id ∉ inventoryItemIds)) }
  (.ok (), s2)

/-- The input pairs that have no existing level row — the pairs the
specification calls offending. -/
def offendingPairs (s : State) (data : List ItemLocation) : List ItemLocation :=
  data.filter (fun i =>
    (findLevel s i.inventory_item_id i.location_id).isNone)

/-- Level keys are pairwise unique: no two rows share (item, location). -/
def UniqueKeys (lvls : List InventoryLevel) : Prop :=
  ∀ l1 ∈ lvls, ∀ l2 ∈ lvls,
    l1.inventory_item_id = l2.inventory_item_id →
    l1.location_id = l2.location_id → l1 = l2

instance (lvls : List InventoryLevel) : Decidable (UniqueKeys lvls) := by
  unfold UniqueKeys
  infer_instance

/-! ### Helper lemmas about the embedded operations -/

theorem levelKeyIs_iff (it lc : String) (l : InventoryLevel) :
    levelKeyIs it lc l = true ↔ (l.inventory_item_id = it ∧ l.location_id = lc) := by
  unfold levelKeyIs
  simp

theorem levelMapPick_eq (p : InventoryLevel → Bool) (lvls : List InventoryLevel)
    (acc : Option InventoryLevel) :
    lvls.foldl (fun a l => if p l then some l else a) acc =
      (lvls.reverse.find? p).or acc := by
  induction lvls generalizing acc with
  | nil => simp
  | cons a t ih =>
    rw [List.foldl_cons, ih, List.reverse_cons, List.find?_append, Option.or_assoc]
    congr 1
    by_cases h : p a
    · rw [List.find?_cons_of_pos _ h]
      simp [h]
    · rw [List.find?_cons_of_neg _ h]
      simp [h]

theorem levelMapGet_eq_find_reverse (lvls : List InventoryLevel) (it lc : String) :
    levelMapGet lvls it lc = lvls.reverse.find? (levelKeyIs it lc) := by
  unfold levelMapGet
  rw [levelMapPick_eq]
  exact Option.or_none

theorem levelMapGet_eq_none_iff (lvls : List InventoryLevel) (it lc : String) :
    levelMapGet lvls it lc = none ↔ ∀ l ∈ lvls, ¬ levelKeyIs it lc l := by
  rw [levelMapGet_eq_find_reverse, List.find?_eq_none]
  simp [List.mem_reverse]

theorem mem_listLevelsBatch (s : State) (itemIds locationIds : List String)
    (l : InventoryLevel) :
    l ∈ listLevelsBatch s itemIds locationIds ↔
      l ∈ s.levels ∧ l.inventory_item_id ∈ itemIds ∧ l.location_id ∈ locationIds := by
  unfold listLevelsBatch
  simp [List.mem_filter, and_assoc]

theorem levelMapGet_batch_isNone (s : State) (data : List ItemLocation) (i : ItemLocation)
    (hi : i ∈ data) :
    (levelMapGet
        (listLevelsBatch s (data.map (fun e => e.inventory_item_id))
          (data.map (fun e => e.location_id)))
        i.inventory_item_id i.location_id).isNone =
      (findLevel s i.inventory_item_id i.location_id).isNone := by
  have key :
      levelMapGet
          (listLevelsBatch s (data.map (fun e => e.inventory_item_id))
            (data.map (fun e => e.location_id)))
          i.inventory_item_id i.location_id = none ↔
        findLevel s i.inventory_item_id i.location_id = none := by
    rw [levelMapGet_eq_none_iff]
    unfold findLevel
    rw [List.find?_eq_none]
    constructor
    · intro h l hl hk
      rw [levelKeyIs_iff] at hk
      refine h l ?_ (by rw [levelKeyIs_iff]; exact hk)
      rw [mem_listLevelsBatch]
      refine ⟨hl, ?_, ?_⟩
      · rw [hk.1]
        exact List.mem_map_of_mem _ hi
      · rw [hk.2]
        exact List.mem_map_of_mem _ hi
    · intro h l hl hk
      exact h l ((mem_listLevelsBatch s _ _ l).mp hl).1 hk
  cases hc :
      levelMapGet
        (listLevelsBatch s (data.map (fun e => e.inventory_item_id))
          (data.map (fun e => e.location_id)))
        i.inventory_item_id i.location_id with
  | none =>
    rw [key.mp hc]
  | some x =>
    cases hf : findLevel s i.inventory_item_id i.location_id with
    | none =>
      rw [hc] at key
      simp at key
      exact absurd hf key
    | some y => rfl

theorem missing_eq_offending (s : State) (data : List ItemLocation) :
    (data.filter (fun i =>
      (levelMapGet
          (listLevelsBatch s (data.map (fun e => e.inventory_item_id))
            (data.map (fun e => e.location_id)))
          i.inventory_item_id i.location_id).isNone)) = offendingPairs s data := by
  unfold offendingPairs
  exact List.filter_congr (fun i hi => levelMapGet_batch_isNone s data i hi)

theorem ensureInventoryLevels_error_of_missing (s : State) (data : List ItemLocation)
    (h : offendingPairs s data ≠ []) :
    ensureInventoryLevels s data =
      .error ⟨.NOT_FOUND,
        String.intercalate ", " ((offendingPairs s data).map notStockedMessage)⟩ := by
  have hne : (offendingPairs s data).isEmpty = false := by
    cases hc : offendingPairs s data with
    | nil => exact absurd hc h
    | cons a t => rfl
  simp only [ensureInventoryLevels]
  rw [missing_eq_offending, hne]
  simp

theorem ensureInventoryLevels_ok_of_all_present (s : State) (data : List ItemLocation)
    (h : offendingPairs s data = []) :
    ensureInventoryLevels s data =
      .ok ((listLevelsBatch s (data.map (fun e => e.inventory_item_id))
          (data.map (fun e => e.location_id))).map (fun i =>
        (levelMapGet
            (listLevelsBatch s (data.map (fun e => e.inventory_item_id))
              (data.map (fun e => e.location_id)))
            i.inventory_item_id i.location_id).getD i)) := by
  simp only [ensureInventoryLevels]
  rw [missing_eq_offending, h]
  simp

theorem inventoryItemRetrieve_error_of_not_exists (s : State) (id0 : String)
    (h : itemExists s id0 = false) :
    inventoryItemRetrieve s id0 = .error (itemNotFoundError id0) := by
  unfold inventoryItemRetrieve
  cases hf : s.items.find? (fun it => decide (it.id = id0)) with
  | none => rfl
  | some x =>
    exfalso
    have hx := List.find?_some hf
    have hm := List.mem_of_find?_eq_some hf
    unfold itemExists at h
    rw [← Bool.not_eq_true, List.any_eq_true] at h
    exact h ⟨x, hm, hx⟩

theorem inventoryItemRetrieve_ok_of_exists (s : State) (id0 : String)
    (h : itemExists s id0 = true) :
    ∃ x, inventoryItemRetrieve s id0 = .ok x := by
  unfold inventoryItemRetrieve
  cases hf : s.items.find? (fun it => decide (it.id = id0)) with
  | some x => exact ⟨x, rfl⟩
  | none =>
    rw [List.find?_eq_none] at hf
    unfold itemExists at h
    rw [List.any_eq_true] at h
    obtain ⟨x, hx, hpx⟩ := h
    exact absurd hpx (hf x hx)

theorem sum_map_sub (L : List InventoryLevel) :
    (L.map (fun l => l.stocked_quantity - l.reserved_quantity)).sum =
      (L.map (fun l => l.stocked_quantity)).sum -
        (L.map (fun l => l.reserved_quantity)).sum := by
  induction L with
  | nil => simp
  | cons a t ih =>
    simp [ih]
    ring

theorem levelsAt_nil (s : State) (it : String) : levelsAt s it [] = [] := by
  unfold levelsAt
  simp

theorem getAvailableQuantity_eq_sub (s : State) (it : String) (locationIds : List String) :
    getAvailableQuantity s it locationIds =
      getStockedQuantity s it locationIds - getReservedQuantity s it locationIds := by
  unfold getAvailableQuantity getStockedQuantity getReservedQuantity
  exact sum_map_sub _

theorem find?_map_update (lvls : List InventoryLevel) (it lc : String)
    (lvl : InventoryLevel) (q : Int)
    (h : lvls.find? (levelKeyIs it lc) = some lvl) :
    (lvls.map (fun l =>
        if decide (l.id = lvl.id) then { l with stocked_quantity := q } else l)).find?
        (levelKeyIs it lc) =
      some { lvl with stocked_quantity := q } := by
  induction lvls with
  | nil => simp at h
  | cons a t ih =>
    by_cases hk : levelKeyIs it lc a
    · rw [List.find?_cons_of_pos _ hk] at h
      injection h with h
      subst h
      rw [List.map_cons]
      have hdec : decide (a.id = a.id) = true := by simp
      rw [hdec]
      simp only [if_true]
      refine List.find?_cons_of_pos _ ?_
      rw [levelKeyIs_iff] at hk ⊢
      exact hk
    · have hk' : levelKeyIs it lc a = false := by
        revert hk
        cases levelKeyIs it lc a <;> simp
      rw [List.find?_cons_of_neg _ hk] at h
      rw [List.map_cons]
      rw [List.find?_cons_of_neg]
      · exact ih h
      · cases hdec : decide (a.id = lvl.id) <;> simpa [levelKeyIs] using hk'

theorem retrieveAvailableQuantity_fst_of_exists (s : State) (id0 : String)
    (locationIds : List String) (h : itemExists s id0 = true) :
    (retrieveAvailableQuantity s id0 locationIds).1 =
      .ok (getAvailableQuantity s id0 locationIds) := by
  obtain ⟨x, hx⟩ := inventoryItemRetrieve_ok_of_exists s id0 h
  unfold retrieveAvailableQuantity
  simp only [hx]
  by_cases hl : locationIds.length = 0
  · rw [if_pos hl]
    have hnil : locationIds = [] := List.length_eq_zero.mp hl
    subst hnil
    have h0 : getAvailableQuantity s id0 [] = 0 := by
      unfold getAvailableQuantity
      rw [levelsAt_nil]
      rfl
    rw [h0]
  · rw [if_neg hl]

/-! ### Concrete rows and states used by witnesses and counterexamples -/

/-- A concrete inventory item used by witnesses. -/
def wItem : InventoryItem := ⟨"item_1"⟩

/-- A concrete inventory level used by witnesses: 10 stocked, 0 reserved. -/
def wLevel : InventoryLevel := ⟨"ilev_1", "item_1", "loc_1", 10, 0⟩

/-- A concrete state with one item stocked at one location. -/
def wState : State := ⟨[wItem], [wLevel], []⟩

/-- A reservation batch whose second pair has no level in wState. -/
def wBadInput : List CreateReservationItemInput :=
  [⟨"item_1", "loc_1", 3, none⟩, ⟨"item_1", "loc_2", 2, none⟩]

/-! ### Claim theorems -/

/-- C1: Reservation creation is all-or-nothing: whenever at least one
(inventory_item_id, location_id) pair of the batch has no existing inventory
level, createReservationItems raises a NotFound error whose message
enumerates every offending pair, and the state — in particular the
reservation table — is left unchanged. -/
theorem createReservationItems_allOrNothing (s : State)
    (input : List CreateReservationItemInput)
    (h : offendingPairs s (input.map toItemLocation) ≠ []) :
    createReservationItems s input =
      (.error ⟨.NOT_FOUND,
        String.intercalate ", "
          ((offendingPairs s (input.map toItemLocation)).map notStockedMessage)⟩, s) := by
  unfold createReservationItems
  rw [ensureInventoryLevels_error_of_missing s _ h]

theorem createReservationItems_allOrNothing_witness :
    offendingPairs wState (wBadInput.map toItemLocation) ≠ [] ∧
    createReservationItems wState wBadInput =
      (.error ⟨.NOT_FOUND, "Item item_1 is not stocked at location loc_2"⟩, wState) := by
  have h : offendingPairs wState (wBadInput.map toItemLocation) ≠ [] := by decide
  refine ⟨h, ?_⟩
  rw [createReservationItems_allOrNothing wState wBadInput h]
  rfl

/-- C2: adjustInventory fails with NotFound and leaves the state unchanged
when no level exists for the pair; otherwise it writes
stocked_quantity = old stocked_quantity + adjustment (the adjustment may be
negative) and returns the updated level, which is then the level found at
that pair. -/
theorem adjustInventory_reads_then_writes (s : State) (inventoryItemId locationId : String)
    (adjustment : Int) :
    (findLevel s inventoryItemId locationId = none →
      adjustInventory s inventoryItemId locationId adjustment =
        (.error (adjustNotFoundError inventoryItemId locationId), s)) ∧
    (∀ lvl, findLevel s inventoryItemId locationId = some lvl →
      adjustInventory s inventoryItemId locationId adjustment =
        (.ok { lvl with stocked_quantity := lvl.stocked_quantity + adjustment },
          levelUpdateStocked s lvl.id (lvl.stocked_quantity + adjustment)) ∧
      findLevel (levelUpdateStocked s lvl.id (lvl.stocked_quantity + adjustment))
          inventoryItemId locationId =
        some { lvl with stocked_quantity := lvl.stocked_quantity + adjustment }) := by
  constructor
  · intro h
    unfold adjustInventory
    rw [h]
  · intro lvl h
    constructor
    · unfold adjustInventory
      rw [h]
    · unfold levelUpdateStocked findLevel
      exact find?_map_update s.levels inventoryItemId locationId lvl _ h

theorem adjustInventory_reads_then_writes_witness :
    findLevel wState "item_1" "loc_1" = some wLevel ∧
    adjustInventory wState "item_1" "loc_1" (-4) =
      (.ok ⟨"ilev_1", "item_1", "loc_1", 6, 0⟩,
        ⟨[wItem], [⟨"ilev_1", "item_1", "loc_1", 6, 0⟩], []⟩) := by
  have h : findLevel wState "item_1" "loc_1" = some wLevel := by rfl
  refine ⟨h, ?_⟩
  rw [((adjustInventory_reads_then_writes wState "item_1" "loc_1" (-4)).2 wLevel h).1]
  rfl

/-- C3: for an existing item, confirmInventory returns exactly whether the
derived available quantity — stocked minus reserved across the given
locations — is at least the requested quantity, and it performs no write:
the state it returns is the state it was given. -/
theorem confirmInventory_decides_availability (s : State) (inventoryItemId : String)
    (locationIds : List String) (quantity : Int)
    (h : itemExists s inventoryItemId = true) :
    confirmInventory s inventoryItemId locationIds quantity =
      (.ok (decide (getStockedQuantity s inventoryItemId locationIds -
          getReservedQuantity s inventoryItemId locationIds ≥ quantity)), s) := by
  have hr := retrieveAvailableQuantity_fst_of_exists s inventoryItemId locationIds h
  unfold confirmInventory
  simp only [hr]
  rw [getAvailableQuantity_eq_sub]

theorem confirmInventory_decides_availability_witness :
    itemExists wState "item_1" = true ∧
    confirmInventory wState "item_1" ["loc_1"] 5 = (.ok true, wState) := by
  have h : itemExists wState "item_1" = true := by rfl
  refine ⟨h, ?_⟩
  rw [confirmInventory_decides_availability wState "item_1" ["loc_1"] 5 h]
  rfl

/-- C4: for an itemId with no inventory item record and a non-empty location
list, each of retrieveAvailableQuantity, retrieveStockedQuantity and
retrieveReservedQuantity fails with the item NotFound error, and the only
store call issued is the item retrieve — no inventory-level query is made. -/
theorem retrieveQuantities_item_existence_first (s : State) (inventoryItemId : String)
    (locationIds : List String) (hItem : itemExists s inventoryItemId = false)
    (hLoc : locationIds ≠ []) :
    retrieveAvailableQuantity s inventoryItemId locationIds =
      (.error (itemNotFoundError inventoryItemId), [.itemRetrieve inventoryItemId]) ∧
    retrieveStockedQuantity s inventoryItemId locationIds =
      (.error (itemNotFoundError inventoryItemId), [.itemRetrieve inventoryItemId]) ∧
    retrieveReservedQuantity s inventoryItemId locationIds =
      (.error (itemNotFoundError inventoryItemId), [.itemRetrieve inventoryItemId]) := by
  have hr := inventoryItemRetrieve_error_of_not_exists s inventoryItemId hItem
  refine ⟨?_, ?_, ?_⟩
  · unfold retrieveAvailableQuantity
    rw [hr]
  · unfold retrieveStockedQuantity
    rw [hr]
  · unfold retrieveReservedQuantity
    rw [hr]

theorem retrieveQuantities_item_existence_first_witness :
    retrieveAvailableQuantity wState "item_missing" ["loc_1"] =
      (.error (itemNotFoundError "item_missing"), [.itemRetrieve "item_missing"]) ∧
    retrieveStockedQuantity wState "item_missing" ["loc_1"] =
      (.error (itemNotFoundError "item_missing"), [.itemRetrieve "item_missing"]) ∧
    retrieveReservedQuantity wState "item_missing" ["loc_1"] =
      (.error (itemNotFoundError "item_missing"), [.itemRetrieve "item_missing"]) :=
  retrieveQuantities_item_existence_first wState "item_missing" ["loc_1"] (by rfl)
    (by decide)

/-- C7: deleting an inventory level for a pair with no existing row is
idempotent: deleteInventoryLevel succeeds without error and returns the
state unchanged — no store write is issued. -/
theorem deleteInventoryLevel_absent_noop (s : State) (inventoryItemId locationId : String)
    (h : findLevel s inventoryItemId locationId = none) :
    deleteInventoryLevel s inventoryItemId locationId = (.ok (), s) := by
  unfold deleteInventoryLevel
  rw [h]

theorem deleteInventoryLevel_absent_noop_witness :
    findLevel wState "item_1" "loc_2" = none ∧
    deleteInventoryLevel wState "item_1" "loc_2" = (.ok (), wState) := by
  have h : findLevel wState "item_1" "loc_2" = none := by rfl
  exact ⟨h, deleteInventoryLevel_absent_noop wState "item_1" "loc_2" h⟩

/-- C10: for an itemId with no inventory item record, confirmInventory fails
with the item NotFound error rather than returning false, because it
delegates the existence check to retrieveAvailableQuantity. -/
theorem confirmInventory_missing_item_not_found (s : State) (inventoryItemId : String)
    (locationIds : List String) (quantity : Int)
    (h : itemExists s inventoryItemId = false) :
    confirmInventory s inventoryItemId locationIds quantity =
      (.error (itemNotFoundError inventoryItemId), s) := by
  have hr := inventoryItemRetrieve_error_of_not_exists s inventoryItemId h
  unfold confirmInventory retrieveAvailableQuantity
  rw [hr]

theorem confirmInventory_missing_item_not_found_witness :
    itemExists wState "item_missing" = false ∧
    confirmInventory wState "item_missing" ["loc_1"] 1 =
      (.error (itemNotFoundError "item_missing"), wState) := by
  have h : itemExists wState "item_missing" = false := by rfl
  exact ⟨h, confirmInventory_missing_item_not_found wState "item_missing" ["loc_1"] 1 h⟩

/-- C5 counterexample: for the existing item of wState and an empty location
list, retrieveAvailableQuantity returns 0 but its list of store calls is not
empty — the item-existence retrieve is issued against the item store — so
the operation does not run with no store calls made. -/
theorem retrieveAvailableQuantity_empty_locations_calls_store :
    (retrieveAvailableQuantity wState "item_1" []).1 = .ok 0 ∧
    (retrieveAvailableQuantity wState "item_1" []).2 ≠ [] := by
  constructor
  · rfl
  · decide

/-- C5 (amended): for every existing inventory item, calling
retrieveAvailableQuantity with an empty location list returns 0, and the
only store call made is the item-existence retrieve — the inventory-level
store is never queried. -/
theorem retrieveAvailableQuantity_empty_locations (s : State) (inventoryItemId : String)
    (h : itemExists s inventoryItemId = true) :
    retrieveAvailableQuantity s inventoryItemId [] =
      (.ok 0, [.itemRetrieve inventoryItemId]) := by
  obtain ⟨x, hx⟩ := inventoryItemRetrieve_ok_of_exists s inventoryItemId h
  unfold retrieveAvailableQuantity
  rw [hx]
  rfl

theorem retrieveAvailableQuantity_empty_locations_witness :
    itemExists wState "item_1" = true ∧
    retrieveAvailableQuantity wState "item_1" [] = (.ok 0, [.itemRetrieve "item_1"]) := by
  have h : itemExists wState "item_1" = true := by rfl
  exact ⟨h, retrieveAvailableQuantity_empty_locations wState "item_1" h⟩

/-- A stored level of item_a at loc_1, the first row of cState. -/
def cLvlA : InventoryLevel := ⟨"ilev_a", "item_a", "loc_1", 5, 0⟩

/-- A stored level of item_b at loc_2, the second row of cState. -/
def cLvlB : InventoryLevel := ⟨"ilev_b", "item_b", "loc_2", 7, 0⟩

/-- A state with two items, each stocked at its own location. -/
def cState : State := ⟨[⟨"item_a"⟩, ⟨"item_b"⟩], [cLvlA, cLvlB], []⟩

/-- Input pairs listed in the opposite order of the stored level rows. -/
def cData : List ItemLocation := [⟨"item_b", "loc_2"⟩, ⟨"item_a", "loc_1"⟩]

/-- C6 counterexample: every pair of cData has a level row, yet
ensureInventoryLevels returns the rows in the store's order [cLvlA, cLvlB],
not in the order of the corresponding input pairs, which would be
[cLvlB, cLvlA]. -/
theorem ensureInventoryLevels_not_input_order :
    (cData.all (fun p => (findLevel cState p.inventory_item_id p.location_id).isSome)) =
      true ∧
    ensureInventoryLevels cState cData = .ok [cLvlA, cLvlB] ∧
    ensureInventoryLevels cState cData ≠ .ok [cLvlB, cLvlA] := by
  refine ⟨by decide, rfl, ?_⟩
  intro hcontra
  have h2 : ensureInventoryLevels cState cData = .ok [cLvlA, cLvlB] := rfl
  rw [h2] at hcontra
  have h3 : ([cLvlA, cLvlB] : List InventoryLevel) = [cLvlB, cLvlA] := by
    injection hcontra
  exact absurd h3 (by decide)

theorem uniqueKeys_of_mem_filter (lvls : List InventoryLevel)
    (hU : UniqueKeys lvls) (p : InventoryLevel → Bool) : UniqueKeys (lvls.filter p) := by
  intro l1 h1 l2 h2 hi hl
  exact hU l1 (List.mem_of_mem_filter h1) l2 (List.mem_of_mem_filter h2) hi hl

theorem levelMapGet_self (lvls : List InventoryLevel) (hU : UniqueKeys lvls)
    (l : InventoryLevel) (hl : l ∈ lvls) :
    levelMapGet lvls l.inventory_item_id l.location_id = some l := by
  rw [levelMapGet_eq_find_reverse]
  cases hf : lvls.reverse.find? (levelKeyIs l.inventory_item_id l.location_id) with
  | none =>
    rw [List.find?_eq_none] at hf
    exact absurd (by rw [levelKeyIs_iff]; exact ⟨rfl, rfl⟩)
      (hf l (List.mem_reverse.mpr hl))
  | some x =>
    have hx := List.find?_some hf
    have hm := List.mem_of_find?_eq_some hf
    rw [List.mem_reverse] at hm
    rw [levelKeyIs_iff] at hx
    rw [hU x hm l hl hx.1 hx.2]

/-- C6 (amended): when every input pair has an existing level row and level
keys are unique, ensureInventoryLevels returns exactly the rows of the level
store's batch query — every stored level whose item id and location id each
occur among the inputs — in the store's return order, which need not match
the order of the corresponding input pairs. -/
theorem ensureInventoryLevels_returns_batch_in_store_order (s : State)
    (data : List ItemLocation) (hU : UniqueKeys s.levels)
    (h : offendingPairs s data = []) :
    ensureInventoryLevels s data =
      .ok (listLevelsBatch s (data.map (fun e => e.inventory_item_id))
        (data.map (fun e => e.location_id))) := by
  rw [ensureInventoryLevels_ok_of_all_present s data h]
  congr 1
  have hUb : UniqueKeys (listLevelsBatch s (data.map (fun e => e.inventory_item_id))
      (data.map (fun e => e.location_id))) :=
    uniqueKeys_of_mem_filter s.levels hU _
  conv_rhs => rw [← List.map_id (listLevelsBatch s
    (data.map (fun e => e.inventory_item_id)) (data.map (fun e => e.location_id)))]
  apply List.map_congr_left
  intro l hl
  rw [levelMapGet_self _ hUb l hl]
  rfl

theorem ensureInventoryLevels_returns_batch_in_store_order_witness :
    UniqueKeys cState.levels ∧ offendingPairs cState cData = [] ∧
    ensureInventoryLevels cState cData =
      .ok (listLevelsBatch cState (cData.map (fun e => e.inventory_item_id))
        (cData.map (fun e => e.location_id))) := by
  have hU : UniqueKeys cState.levels := by decide
  have h : offendingPairs cState cData = [] := by decide
  exact ⟨hU, h, ensureInventoryLevels_returns_batch_in_store_order cState cData hU h⟩

/-- C8: deleteInventoryItem removes every level belonging to the given item
ids (the cascade runs before the item delete) and the item rows themselves,
while levels belonging to other items and all reservation rows are left
unchanged. -/
theorem deleteInventoryItem_cascades (s : State) (inventoryItemIds : List String) :
    (deleteInventoryItem s inventoryItemIds).1 = .ok () ∧
    ((deleteInventoryItem s inventoryItemIds).2).reservations = s.reservations ∧
    (∀ l : InventoryLevel, l ∈ ((deleteInventoryItem s inventoryItemIds).2).levels ↔
      l ∈ s.levels ∧ l.inventory_item_id ∉ inventoryItemIds) ∧
    (∀ it : InventoryItem, it ∈ ((deleteInventoryItem s inventoryItemIds).2).items ↔
      it ∈ s.items ∧ it.id ∉ inventoryItemIds) := by
  refine ⟨rfl, rfl, ?_, ?_⟩
  · intro l
    simp [deleteInventoryItem, List.mem_filter]
  · intro it
    simp [deleteInventoryItem, List.mem_filter]

theorem deleteInventoryItem_cascades_witness :
    (deleteInventoryItem wState ["item_x"]).1 = .ok () ∧
    ((deleteInventoryItem wState ["item_x"]).2).reservations = wState.reservations ∧
    (wLevel ∈ ((deleteInventoryItem wState ["item_x"]).2).levels ↔
      wLevel ∈ wState.levels ∧ wLevel.inventory_item_id ∉ ["item_x"]) := by
  have h := deleteInventoryItem_cascades wState ["item_x"]
  exact ⟨h.1, h.2.1, h.2.2.1 wLevel⟩

theorem reservationRows_project (startIdx : Nat) (input : List CreateReservationItemInput) :
    (reservationRows startIdx input).map
        (fun r => (r.inventory_item_id, r.location_id, r.quantity)) =
      input.map (fun i => (i.inventory_item_id, i.location_id, i.quantity)) := by
  induction input generalizing startIdx with
  | nil => rfl
  | cons a t ih => simp [reservationRows, reservationRow, ih]

/-- C9: createReservationItems never checks availability: whenever every
input pair has an existing level row, it succeeds and appends one
reservation row per input, carrying exactly the requested item, location and
quantity, with no hypothesis relating quantities to available stock — so
reservations can drive the derived available quantity negative. -/
theorem createReservationItems_no_availability_check (s : State)
    (input : List CreateReservationItemInput)
    (h : offendingPairs s (input.map toItemLocation) = []) :
    ∃ rows,
      createReservationItems s input =
        (.ok rows,
          { s with
            reservations := s.reservations ++ rows,
            levels := input.foldl (fun acc i =>
              bumpReserved acc i.inventory_item_id i.location_id i.quantity) s.levels }) ∧
      rows.map (fun r => (r.inventory_item_id, r.location_id, r.quantity)) =
        input.map (fun i => (i.inventory_item_id, i.location_id, i.quantity)) := by
  refine ⟨reservationRows s.reservations.length input, ?_,
    reservationRows_project s.reservations.length input⟩
  unfold createReservationItems
  rw [ensureInventoryLevels_ok_of_all_present s _ h]
  rfl

/-- A reservation input requesting more than the 10 available units. -/
def wBigInput : List CreateReservationItemInput := [⟨"item_1", "loc_1", 15, none⟩]

theorem createReservationItems_no_availability_check_witness :
    offendingPairs wState (wBigInput.map toItemLocation) = [] ∧
    (∃ rows,
      createReservationItems wState wBigInput =
        (.ok rows,
          { wState with
            reservations := wState.reservations ++ rows,
            levels := wBigInput.foldl (fun acc i =>
              bumpReserved acc i.inventory_item_id i.location_id i.quantity)
              wState.levels }) ∧
      rows.map (fun r => (r.inventory_item_id, r.location_id, r.quantity)) =
        wBigInput.map (fun i => (i.inventory_item_id, i.location_id, i.quantity))) ∧
    getAvailableQuantity (createReservationItems wState wBigInput).2 "item_1" ["loc_1"] =
      -5 := by
  refine ⟨by decide,
    createReservationItems_no_availability_check wState wBigInput (by decide), by decide⟩

end Medusa
